import Mathlib

/-
Verification of the metrics layer of the employee engagement & burnout
dashboard (src/paloA.py).

The dashboard is a linear pandas pipeline over an in-memory table.  We embed
the table as a `List Record`, one `Record` per row, with the raw columns the
pipeline reads plus the three derived columns it adds (lines 36-44 of the
source).  Pandas floats are modelled by `ℚ` (every quantity the pipeline
computes is a ratio of small integers, and every comparison it performs is
far from any rounding boundary, so exact rationals are faithful); a pandas
NaN / missing value is modelled by `none` in an `Option`, and a computation
that raises (the unguarded divisions by `len(df)` on lines 83 and 202) is
modelled as returning `none`.
-/

namespace Dashboard

/-- A pandas cell value: a string or an integer.  Line 60 of the source
compares the raw string column `Attrition` with the integer literal `1`;
in pandas such a mixed-type elementwise comparison is `False` for every
row, which `pEq` reproduces. -/
inductive PValue where
  | str (s : String)
  | int (n : Int)
deriving DecidableEq

/-- Pandas elementwise `==`: values of different kinds never compare equal. -/
def pEq : PValue → PValue → Bool
  | PValue.str a, PValue.str b => a == b
  | PValue.int a, PValue.int b => a == b
  | PValue.str _, PValue.int _ => false
  | PValue.int _, PValue.str _ => false

/-- One row of the table: the raw columns the pipeline reads, plus the three
derived columns.  Before enrichment the derived columns hold `none` / `0`;
`enrichRecord` overwrites them, exactly as the column assignments of lines
36-44 overwrite the dataframe columns. -/
structure Record where
  department : String
  jobRole : String
  attrition : String
  overTime : String
  jobSatisfaction : Int
  environmentSatisfaction : Int
  workLifeBalance : Int
  attritionFlag : Option Int
  overTimeFlag : Option Int
  engagementIndex : ℚ
deriving DecidableEq

/-- `Series.map({"Yes": 1, "No": 0})` applied to one cell: any value outside
the mapping's keys becomes missing (pandas NaN), modelled as `none`. -/
def yesNoFlag (s : String) : Option Int :=
  if s = "Yes" then some 1 else if s = "No" then some 0 else none

/-- Lines 36-44: compute the three derived columns of one row from the raw
columns.  `EngagementIndex = (JobSatisfaction + EnvironmentSatisfaction +
WorkLifeBalance) / 3`. -/
def enrichRecord (r : Record) : Record :=
  { r with
    attritionFlag := yesNoFlag r.attrition
    overTimeFlag := yesNoFlag r.overTime
    engagementIndex :=
      ((r.jobSatisfaction : ℚ) + (r.environmentSatisfaction : ℚ)
        + (r.workLifeBalance : ℚ)) / 3 }

/-- Lines 36-44 applied to the whole table (`enrich` of the spec). -/
def enrich (records : List Record) : List Record :=
  records.map enrichRecord

/-- Line 55: `df = df[df["Department"].isin(dept)]` — keep the rows whose
`Department` is a member of the selected list (`filterByCategory` of the
spec). -/
def filterByCategory (records : List Record) (allowed : List String) :
    List Record :=
  records.filter (fun r => allowed.contains r.department)

/-- Line 59: `total_employees = len(df)`. -/
def totalEmployees (records : List Record) : Nat :=
  records.length

/-- Line 60: `attrition_count = df[df["Attrition"] == 1].shape[0]` — the raw
string column compared elementwise with the integer `1`. -/
def attritionCount (records : List Record) : Nat :=
  (records.filter (fun r => pEq (PValue.str r.attrition) (PValue.int 1))).length

/-- Line 61: `attrition_rate = (attrition_count / total_employees) * 100 if
total_employees > 0 else 0` — the one percentage with a zero guard. -/
def attritionRate (records : List Record) : ℚ :=
  if 0 < totalEmployees records then
    ((attritionCount records : ℚ) / (totalEmployees records : ℚ)) * 100
  else 0

/-- `Series.mean()` over a numeric column: NaN (`none`) on an empty series,
otherwise sum divided by length. -/
def seriesMean (l : List ℚ) : Option ℚ :=
  if l.isEmpty then none else some (l.sum / (l.length : ℚ))

/-- `Series.mean()` over a column that may hold NaN entries: pandas skips
the missing values (`skipna`), and the mean is NaN when nothing remains. -/
def optMean (l : List (Option ℚ)) : Option ℚ :=
  seriesMean (l.filterMap id)

/-- Python `round(x, 1)` on our rationals: round to one decimal digit.
(Python rounds float ties to even; no quantity compared or displayed by the
pipeline makes the tie rule observable, and the same rounding function is
used on both sides of every statement below, so the convention cancels.) -/
def round1 (q : ℚ) : ℚ :=
  ((round (q * 10) : ℤ) : ℚ) / 10

/-- Line 73: `round(df['OverTimeFlag'].mean()*100, 1)` — the overtime
percentage KPI.  No zero guard: the mean of an empty column is NaN and the
displayed value is NaN, modelled as `none`. -/
def overtimePct (records : List Record) : Option ℚ :=
  (optMean (records.map (fun r => r.overTimeFlag.map (fun n => (n : ℚ))))).map
    (fun m => round1 (m * 100))

/-- Line 83, the numerator: `len(df[(df['OverTimeFlag']==1) &
(df['WorkLifeBalance']<=2)])` — two conditions only. -/
def highBurnoutCount (records : List Record) : Nat :=
  (records.filter (fun r =>
    (r.overTimeFlag == some 1) && decide (r.workLifeBalance ≤ 2))).length

/-- Line 83: the high-burnout-risk percentage KPI.  The division by
`len(df)` is unguarded: on an empty table it raises `ZeroDivisionError`,
modelled as `none`. -/
def highBurnoutPct (records : List Record) : Option ℚ :=
  if records.length = 0 then none
  else some (round1 ((highBurnoutCount records : ℚ) / (records.length : ℚ) * 100))

/-- Lines 194-198 with the thresholds as parameters (`classifyHighBurnoutRisk`
of the spec): keep the rows satisfying the conjunction of the three
threshold conditions. -/
def classifyHighBurnoutRisk (records : List Record) (otEq : Int)
    (wlbMax : Int) (eiMax : ℚ) : List Record :=
  records.filter (fun r =>
    (r.overTimeFlag == some otEq) && decide (r.workLifeBalance ≤ wlbMax)
      && decide (r.engagementIndex ≤ eiMax))

/-- Lines 194-198 as written: the three literal thresholds `1`, `2`, `2.5`. -/
def riskDf (records : List Record) : List Record :=
  classifyHighBurnoutRisk records 1 2 (5 / 2)

/-- Line 202: `round(len(risk_df)/len(df)*100, 1)` — the percentage shown
with the risk table.  The division by `len(df)` is unguarded: on an empty
table it raises `ZeroDivisionError`, modelled as `none`. -/
def riskCountPct (records : List Record) : Option ℚ :=
  if records.length = 0 then none
  else some (round1 (((riskDf records).length : ℚ) / (records.length : ℚ) * 100))

/-- One row of `burnout_df` (lines 113-117): a job role with the mean of
each of the three derived columns over that role's rows. -/
structure GroupSummary where
  jobRole : String
  overTimeFlagMean : Option ℚ
  engagementIndexMean : Option ℚ
  attritionFlagMean : Option ℚ
deriving DecidableEq

/-- The group keys produced by `df.groupby("JobRole")`: pandas `groupby`
defaults to `sort=True`, so the distinct `JobRole` values appear sorted
ascending — not in order of first appearance. -/
def groupKeys (records : List Record) : List String :=
  List.insertionSort (fun a b => a ≤ b) (records.map (fun r => r.jobRole)).dedup

/-- Lines 113-117: `df.groupby("JobRole").agg({... "mean" ...}).reset_index()`
— one summary row per distinct job role, in sorted key order, with the mean
of each derived column over the role's rows (NaN entries skipped). -/
def groupSummary (records : List Record) : List GroupSummary :=
  (groupKeys records).map (fun k =>
    let g := records.filter (fun r => r.jobRole == k)
    { jobRole := k
      overTimeFlagMean :=
        optMean (g.map (fun r => r.overTimeFlag.map (fun n => (n : ℚ))))
      engagementIndexMean := seriesMean (g.map (fun r => r.engagementIndex))
      attritionFlagMean :=
        optMean (g.map (fun r => r.attritionFlag.map (fun n => (n : ℚ)))) })

/-- The ordering `sort_values(by="OverTimeFlag", ascending=True)` sorts by:
ordinary `≤` between present means, and NaN (`none`) placed last
(`na_position='last'`). -/
def meanLE : Option ℚ → Option ℚ → Prop
  | none, none => True
  | none, some _ => False
  | some _, none => True
  | some x, some y => x ≤ y

instance decMeanLE : DecidableRel meanLE := fun a b =>
  match a, b with
  | none, none => Decidable.isTrue trivial
  | none, some _ => Decidable.isFalse (fun h => h)
  | some _, none => Decidable.isTrue trivial
  | some x, some y => inferInstanceAs (Decidable (x ≤ y))

/-- Line 120: `burnout_df.sort_values(by="OverTimeFlag", ascending=True)`,
modelled as a stable sort on the mean overtime flag (numpy's sort on these
group-sized arrays resolves ties without reordering). -/
def sortByOverTime (l : List GroupSummary) : List GroupSummary :=
  List.insertionSort (fun a b => meanLE a.overTimeFlagMean b.overTimeFlagMean) l

/-- Lines 113-120: the sorted per-role summary handed to the two bar
charts. -/
def burnoutDf (records : List Record) : List GroupSummary :=
  sortByOverTime (groupSummary records)

/-- A raw row whose `OverTime` does not qualify for the risk table. -/
def recSafe : Record :=
  { department := "Sales", jobRole := "Manager", attrition := "No",
    overTime := "No", jobSatisfaction := 4, environmentSatisfaction := 4,
    workLifeBalance := 4, attritionFlag := none, overTimeFlag := none,
    engagementIndex := 0 }

/-- A raw row satisfying all three risk conditions after enrichment. -/
def recRisky : Record :=
  { department := "Sales", jobRole := "Manager", attrition := "No",
    overTime := "Yes", jobSatisfaction := 1, environmentSatisfaction := 1,
    workLifeBalance := 1, attritionFlag := none, overTimeFlag := none,
    engagementIndex := 0 }

/-- A raw row with an unmapped `Attrition` value. -/
def recUnknown : Record :=
  { department := "Sales", jobRole := "Manager", attrition := "Maybe",
    overTime := "Yes", jobSatisfaction := 3, environmentSatisfaction := 3,
    workLifeBalance := 3, attritionFlag := none, overTimeFlag := none,
    engagementIndex := 0 }

/-- A raw row with mid-scale ordinal scores. -/
def recMid : Record :=
  { department := "Sales", jobRole := "Manager", attrition := "No",
    overTime := "No", jobSatisfaction := 2, environmentSatisfaction := 3,
    workLifeBalance := 4, attritionFlag := none, overTimeFlag := none,
    engagementIndex := 0 }

/-- Membership in the risk table: exactly the rows of the table satisfying
the three threshold conditions of lines 194-198. -/
lemma mem_riskDf (records : List Record) (r : Record) :
    r ∈ riskDf records ↔ r ∈ records ∧ r.overTimeFlag = some 1 ∧
      r.workLifeBalance ≤ 2 ∧ r.engagementIndex ≤ 5 / 2 := by
  simp [riskDf, classifyHighBurnoutRisk, List.mem_filter, and_assoc]

/-- C1: with the default thresholds, `classifyHighBurnoutRisk` returns the
subsequence of rows satisfying the conjunction of all three conditions —
`OverTimeFlag == 1` and `WorkLifeBalance ≤ 2` and `EngagementIndex ≤ 2.5` —
never a row satisfying only some of them, and the empty sequence when no row
satisfies all three. -/
theorem classify_high_burnout_conj (records : List Record) (r : Record) :
    List.Sublist (riskDf records) records ∧
    (r ∈ riskDf records ↔ r ∈ records ∧ r.overTimeFlag = some 1 ∧
      r.workLifeBalance ≤ 2 ∧ r.engagementIndex ≤ 5 / 2) ∧
    ((∀ s ∈ records, ¬(s.overTimeFlag = some 1 ∧ s.workLifeBalance ≤ 2 ∧
      s.engagementIndex ≤ 5 / 2)) → riskDf records = []) := by
  refine ⟨List.filter_sublist _, mem_riskDf records r, fun h => ?_⟩
  refine List.eq_nil_iff_forall_not_mem.mpr (fun s hs => ?_)
  rcases (mem_riskDf records s).mp hs with ⟨hmem, hcond⟩
  exact h s hmem hcond

/-- Witness for C1 on a concrete one-row table whose row fails the overtime
condition: the risk table is empty. -/
theorem classify_high_burnout_conj_witness :
    riskDf (enrich [recSafe]) = [] :=
  (classify_high_burnout_conj (enrich [recSafe]) recSafe).2.2 (by
    intro s hs
    simp only [enrich, List.map_cons, List.map_nil, List.mem_singleton] at hs
    subst hs
    simp [recSafe, enrichRecord, yesNoFlag])

/-- C2 counterexample: on the empty table the overtime percentage is NaN
(`none`) and the two risk percentages raise a division error (`none`); none
of the three returns the claimed default `0`. -/
theorem kpi_unguarded_on_empty :
    overtimePct [] = none ∧ highBurnoutPct [] = none ∧ riskCountPct [] = none :=
  ⟨rfl, rfl, rfl⟩

/-- C2 amended: on a zero-sized table only the attrition rate (line 61, the
one guarded computation) returns the default `0`; the overtime percentage
yields an undefined NaN and the high-burnout and risk-count percentages
divide by zero. -/
theorem kpi_empty_dataset_behavior (records : List Record)
    (h : records.length = 0) :
    attritionRate records = 0 ∧ overtimePct records = none ∧
      highBurnoutPct records = none ∧ riskCountPct records = none := by
  rcases List.length_eq_zero.mp h with rfl
  exact ⟨rfl, rfl, rfl, rfl⟩

/-- Witness for the amended C2 at the concrete empty table. -/
theorem kpi_empty_dataset_behavior_witness :
    attritionRate [] = 0 ∧ overtimePct [] = none ∧
      highBurnoutPct [] = none ∧ riskCountPct [] = none :=
  kpi_empty_dataset_behavior [] rfl

/-- C3: when every row's `Attrition` is `"Yes"` or `"No"` and the table is
non-empty, the displayed attrition rate is `0`: line 60 compares the raw
string column with the integer `1`, which never matches. -/
theorem attritionRate_zero_on_yes_no (records : List Record)
    (hvals : ∀ r ∈ records, r.attrition = "Yes" ∨ r.attrition = "No")
    (hpos : 0 < records.length) :
    attritionRate records = 0 := by
  have hcount : attritionCount records = 0 := by
    have hnil :
        records.filter
          (fun r => pEq (PValue.str r.attrition) (PValue.int 1)) = [] := by
      refine List.filter_eq_nil_iff.mpr (fun a _ => ?_)
      simp [pEq]
    simp [attritionCount, hnil]
  simp [attritionRate, totalEmployees, hpos, hcount]

/-- Witness for C3 on a concrete two-row table with `Attrition = "No"`. -/
theorem attritionRate_zero_on_yes_no_witness :
    attritionRate [recRisky, recSafe] = 0 :=
  attritionRate_zero_on_yes_no [recRisky, recSafe]
    (by
      intro r hr
      simp only [List.mem_cons, List.mem_singleton] at hr
      rcases hr with rfl | rfl | h
      · exact Or.inr rfl
      · exact Or.inr rfl
      · exact absurd h (List.not_mem_nil r))
    (by simp)

/-- C4: the attrition-rate KPI equals the count of rows whose raw
`Attrition` cell compares equal to the integer `1`, divided by the row
count, times 100, and `0` on a zero-sized table. -/
theorem attritionRate_eq_formula (records : List Record) :
    attritionRate records =
      if records.length = 0 then 0
      else (records.countP
          (fun r => pEq (PValue.str r.attrition) (PValue.int 1)) : ℚ)
        / (records.length : ℚ) * 100 := by
  rcases Nat.eq_zero_or_pos records.length with h | h
  · simp [attritionRate, totalEmployees, h]
  · have hne : ¬ records.length = 0 := Nat.pos_iff_ne_zero.mp h
    simp [attritionRate, totalEmployees, attritionCount, h, hne,
      List.countP_eq_length_filter]

/-- C5: for a non-empty table the high-burnout-risk KPI is the count of rows
satisfying the two conditions `OverTimeFlag == 1` and `WorkLifeBalance ≤ 2`,
divided by the row count, times 100, rounded to one decimal; and the KPI is
invariant under any change of the `EngagementIndex` column. -/
theorem highBurnoutPct_two_conditions (records : List Record)
    (h : 0 < records.length) :
    highBurnoutPct records =
      some (round1 ((records.countP (fun r =>
          (r.overTimeFlag == some 1) && decide (r.workLifeBalance ≤ 2)) : ℚ)
        / (records.length : ℚ) * 100)) ∧
    (∀ g : Record → ℚ,
      highBurnoutPct (records.map (fun r => { r with engagementIndex := g r }))
        = highBurnoutPct records) := by
  have hne : ¬ records.length = 0 := Nat.pos_iff_ne_zero.mp h
  constructor
  · simp [highBurnoutPct, highBurnoutCount, hne, List.countP_eq_length_filter]
  · intro g
    have hcnt :
        highBurnoutCount
          (records.map (fun r => { r with engagementIndex := g r }))
          = highBurnoutCount records := by
      rw [highBurnoutCount, highBurnoutCount, ← List.countP_eq_length_filter,
        ← List.countP_eq_length_filter, List.countP_map]
      rfl
    simp [highBurnoutPct, hcnt]

/-- Witness for C5 on a concrete one-row table whose row meets both
conditions: the KPI is 100%. -/
theorem highBurnoutPct_two_conditions_witness :
    highBurnoutPct [enrichRecord recRisky] = some 100 := by
  have h := (highBurnoutPct_two_conditions [enrichRecord recRisky]
    (by simp)).1
  rw [h]
  norm_num [recRisky, enrichRecord, yesNoFlag, round1, round_eq]

/-- C6: the department filter retains exactly the rows whose `Department` is
among the selected values, in order (a sublist), and an empty selection
yields the empty table, never "all rows". -/
theorem filterByCategory_correct (records : List Record)
    (allowed : List String) :
    List.Sublist (filterByCategory records allowed) records ∧
    (∀ r : Record, r ∈ filterByCategory records allowed ↔
      r ∈ records ∧ r.department ∈ allowed) ∧
    (allowed = [] → filterByCategory records allowed = []) := by
  refine ⟨List.filter_sublist _, ?_, ?_⟩
  · intro r
    simp [filterByCategory, List.mem_filter, List.elem_iff]
  · rintro rfl
    simp [filterByCategory]

/-- Witness for C6: a non-empty table filtered by the empty selection is
empty. -/
theorem filterByCategory_correct_witness :
    filterByCategory [recSafe] [] = [] :=
  (filterByCategory_correct [recSafe] []).2.2 rfl

/-- C7: when the three ordinal inputs of every row lie in `[lo, hi]`, every
computed `EngagementIndex` lies in `[lo, hi]`, and for a non-empty table the
mean `EngagementIndex` also lies in `[lo, hi]`. -/
theorem engagementIndex_bounded (lo hi : ℚ) (records : List Record)
    (hne : records ≠ [])
    (hb : ∀ r ∈ records,
      (lo ≤ (r.jobSatisfaction : ℚ) ∧ (r.jobSatisfaction : ℚ) ≤ hi) ∧
      (lo ≤ (r.environmentSatisfaction : ℚ) ∧
        (r.environmentSatisfaction : ℚ) ≤ hi) ∧
      (lo ≤ (r.workLifeBalance : ℚ) ∧ (r.workLifeBalance : ℚ) ≤ hi)) :
    (∀ r ∈ records, lo ≤ (enrichRecord r).engagementIndex ∧
      (enrichRecord r).engagementIndex ≤ hi) ∧
    (∃ m, seriesMean ((enrich records).map (fun r => r.engagementIndex))
        = some m ∧ lo ≤ m ∧ m ≤ hi) := by
  have hrec : ∀ r ∈ records, lo ≤ (enrichRecord r).engagementIndex ∧
      (enrichRecord r).engagementIndex ≤ hi := by
    intro r hr
    obtain ⟨⟨h1, h2⟩, ⟨h3, h4⟩, ⟨h5, h6⟩⟩ := hb r hr
    constructor
    · show lo ≤ ((r.jobSatisfaction : ℚ) + (r.environmentSatisfaction : ℚ)
        + (r.workLifeBalance : ℚ)) / 3
      rw [le_div_iff₀ (by norm_num : (0:ℚ) < 3)]
      linarith
    · show ((r.jobSatisfaction : ℚ) + (r.environmentSatisfaction : ℚ)
        + (r.workLifeBalance : ℚ)) / 3 ≤ hi
      rw [div_le_iff₀ (by norm_num : (0:ℚ) < 3)]
      linarith
  have hvals : ∀ q ∈ (enrich records).map (fun r => r.engagementIndex),
      lo ≤ q ∧ q ≤ hi := by
    intro q hq
    simp only [enrich, List.map_map, List.mem_map, Function.comp] at hq
    obtain ⟨r, hr, rfl⟩ := hq
    exact hrec r hr
  have hlnil : (enrich records).map (fun r => r.engagementIndex) ≠ [] := by
    simp [enrich, hne]
  have hpos :
      (0:ℚ) < ((enrich records).map (fun r => r.engagementIndex)).length := by
    have hz : ((enrich records).map (fun r => r.engagementIndex)).length ≠ 0 := by
      simpa [List.length_eq_zero] using hlnil
    exact_mod_cast Nat.pos_of_ne_zero hz
  have hsum_lo :
      (((enrich records).map (fun r => r.engagementIndex)).length : ℚ) * lo ≤
        ((enrich records).map (fun r => r.engagementIndex)).sum := by
    have := List.card_nsmul_le_sum
      ((enrich records).map (fun r => r.engagementIndex))
      lo (fun x hx => (hvals x hx).1)
    simpa [nsmul_eq_mul] using this
  have hsum_hi :
      ((enrich records).map (fun r => r.engagementIndex)).sum ≤
        (((enrich records).map (fun r => r.engagementIndex)).length : ℚ) * hi := by
    have := List.sum_le_card_nsmul
      ((enrich records).map (fun r => r.engagementIndex))
      hi (fun x hx => (hvals x hx).2)
    simpa [nsmul_eq_mul] using this
  refine ⟨hrec,
    ((enrich records).map (fun r => r.engagementIndex)).sum /
      (((enrich records).map (fun r => r.engagementIndex)).length : ℚ),
    ?_, ?_, ?_⟩
  · simp [seriesMean, List.isEmpty_iff, hlnil]
  · rw [le_div_iff₀ hpos]
    linarith
  · rw [div_le_iff₀ hpos]
    linarith

/-- Witness for C7 on a concrete one-row table with scores 2, 3, 4 on the
1-4 scale. -/
theorem engagementIndex_bounded_witness :
    (1:ℚ) ≤ (enrichRecord recMid).engagementIndex ∧
      (enrichRecord recMid).engagementIndex ≤ 4 :=
  (engagementIndex_bounded 1 4 [recMid] (by simp)
    (by
      intro r hr
      simp only [List.mem_singleton] at hr
      subst hr
      norm_num [recMid])).1 recMid (by simp)

/-- C9: an `Attrition` (resp. `OverTime`) value other than `"Yes"`/`"No"`
yields a missing (`none`) flag — a distinguishable unknown, never a silent
`0` — while `"Yes"`/`"No"` yield flags in `{0, 1}`. -/
theorem yesNo_flag_policy (r : Record) :
    ((r.attrition ≠ "Yes" ∧ r.attrition ≠ "No") →
      (enrichRecord r).attritionFlag = none) ∧
    ((r.overTime ≠ "Yes" ∧ r.overTime ≠ "No") →
      (enrichRecord r).overTimeFlag = none) ∧
    ((r.attrition = "Yes" ∨ r.attrition = "No") →
      (enrichRecord r).attritionFlag = some 1 ∨
        (enrichRecord r).attritionFlag = some 0) ∧
    ((r.overTime = "Yes" ∨ r.overTime = "No") →
      (enrichRecord r).overTimeFlag = some 1 ∨
        (enrichRecord r).overTimeFlag = some 0) := by
  refine ⟨?_, ?_, ?_, ?_⟩
  · rintro ⟨h1, h2⟩
    simp [enrichRecord, yesNoFlag, h1, h2]
  · rintro ⟨h1, h2⟩
    simp [enrichRecord, yesNoFlag, h1, h2]
  · rintro (h | h) <;> simp [enrichRecord, yesNoFlag, h]
  · rintro (h | h) <;> simp [enrichRecord, yesNoFlag, h]

/-- Witness for C9 on a concrete row with `Attrition = "Maybe"` and
`OverTime = "Yes"`. -/
theorem yesNo_flag_policy_witness :
    (enrichRecord recUnknown).attritionFlag = none ∧
    ((enrichRecord recUnknown).overTimeFlag = some 1 ∨
      (enrichRecord recUnknown).overTimeFlag = some 0) :=
  ⟨(yesNo_flag_policy recUnknown).1 ⟨by decide, by decide⟩,
   (yesNo_flag_policy recUnknown).2.2.2 (Or.inl rfl)⟩

/-- The sort key of line 120 is reflexive. -/
lemma meanLE_refl (a : Option ℚ) : meanLE a a := by
  cases a <;> simp [meanLE]

/-- The sort key of line 120 is total. -/
lemma meanLE_total (a b : Option ℚ) : meanLE a b ∨ meanLE b a := by
  cases a <;> cases b <;> simp [meanLE]
  exact le_total _ _

/-- The sort key of line 120 is transitive. -/
lemma meanLE_trans {a b c : Option ℚ} (h1 : meanLE a b) (h2 : meanLE b c) :
    meanLE a c := by
  cases a <;> cases b <;> cases c <;> simp [meanLE] at *
  exact le_trans h1 h2

/-- Stability of `orderedInsert`: inserting `a` into a list whose ties
already respect `P`, when `P a x` holds for every element of the list,
preserves the combined sortedness-and-tie-order invariant. -/
lemma orderedInsert_stable {α : Type} (le : α → α → Prop) [DecidableRel le]
    (P : α → α → Prop) (htrans : ∀ {x y z}, le x y → le y z → le x z)
    (htot : ∀ x y, le x y ∨ le y x) (a : α) :
    ∀ l : List α,
      l.Pairwise (fun x y => le x y ∧ (le y x → P x y)) →
      (∀ x ∈ l, P a x) →
      (List.orderedInsert le a l).Pairwise
        (fun x y => le x y ∧ (le y x → P x y)) := by
  intro l
  induction l with
  | nil =>
    intro _ _
    exact List.pairwise_singleton _ _
  | cons b l ih =>
    intro hpair hP
    rcases List.pairwise_cons.mp hpair with ⟨hb, hl⟩
    rw [List.orderedInsert]
    by_cases hab : le a b
    · rw [if_pos hab]
      refine List.pairwise_cons.mpr ⟨?_, hpair⟩
      intro y hy
      rcases List.mem_cons.mp hy with rfl | hyl
      · exact ⟨hab, fun _ => hP y (List.mem_cons_self _ _)⟩
      · exact ⟨htrans hab (hb y hyl).1,
          fun _ => hP y (List.mem_cons_of_mem _ hyl)⟩
    · rw [if_neg hab]
      have hba : le b a := (htot a b).resolve_left hab
      refine List.pairwise_cons.mpr
        ⟨?_, ih hl (fun x hx => hP x (List.mem_cons_of_mem _ hx))⟩
      intro y hy
      rcases (List.mem_orderedInsert le).mp hy with rfl | hyl
      · exact ⟨hba, fun h => absurd h hab⟩
      · exact hb y hyl

/-- Stability of `insertionSort`: on input whose relative order satisfies
`P`, elements tied under `le` keep their input order in the output. -/
lemma insertionSort_stable {α : Type} (le : α → α → Prop) [DecidableRel le]
    (P : α → α → Prop) (htrans : ∀ {x y z}, le x y → le y z → le x z)
    (htot : ∀ x y, le x y ∨ le y x) :
    ∀ l : List α, l.Pairwise P →
      (l.insertionSort le).Pairwise
        (fun x y => le x y ∧ (le y x → P x y)) := by
  intro l
  induction l with
  | nil =>
    intro _
    exact List.Pairwise.nil
  | cons a l ih =>
    intro hpair
    rcases List.pairwise_cons.mp hpair with ⟨ha, hl⟩
    rw [List.insertionSort]
    exact orderedInsert_stable le P htrans htot a _ (ih hl)
      (fun x hx => ha x ((List.mem_insertionSort le).mp hx))

/-- The group keys of lines 113-117 come out strictly sorted: `groupby`
sorts the distinct `JobRole` values ascending. -/
lemma groupKeys_pairwise (records : List Record) :
    (groupKeys records).Pairwise (fun a b => a < b) := by
  have hsorted : (groupKeys records).Sorted (· ≤ ·) :=
    List.sorted_insertionSort _ _
  have hnodup : (groupKeys records).Nodup :=
    ((List.perm_insertionSort _ _).nodup_iff).mpr
      (List.nodup_dedup (records.map (fun r => r.jobRole)))
  exact (hsorted.and hnodup).imp (fun h => lt_of_le_of_ne h.1 h.2)

/-- The summary rows of lines 113-117 come out strictly sorted by job
role. -/
lemma groupSummary_pairwise (records : List Record) :
    (groupSummary records).Pairwise (fun a b => a.jobRole < b.jobRole) := by
  rw [groupSummary]
  exact List.pairwise_map.mpr ((groupKeys_pairwise records).imp (fun h => h))

/-- C8 amended: after the stable sort of line 120, equal-mean groups appear
in ascending `JobRole` order — the order `groupby` produced — not in order
of first appearance in the table. -/
theorem burnoutDf_stable_by_key (records : List Record) :
    (burnoutDf records).Pairwise (fun a b =>
      meanLE a.overTimeFlagMean b.overTimeFlagMean ∧
      (a.overTimeFlagMean = b.overTimeFlagMean → a.jobRole < b.jobRole)) := by
  have h := insertionSort_stable
    (fun a b : GroupSummary => meanLE a.overTimeFlagMean b.overTimeFlagMean)
    (fun a b : GroupSummary => a.jobRole < b.jobRole)
    (fun h1 h2 => meanLE_trans h1 h2)
    (fun a b => meanLE_total a.overTimeFlagMean b.overTimeFlagMean)
    (groupSummary records) (groupSummary_pairwise records)
  rw [burnoutDf, sortByOverTime]
  refine h.imp ?_
  rintro a b ⟨h1, h2⟩
  refine ⟨h1, fun heq => h2 ?_⟩
  show meanLE b.overTimeFlagMean a.overTimeFlagMean
  rw [heq]
  exact meanLE_refl _

/-- Witness for the amended C8 at a concrete table. -/
theorem burnoutDf_stable_by_key_witness :
    (burnoutDf (enrich [recRisky, recSafe])).Pairwise (fun a b =>
      meanLE a.overTimeFlagMean b.overTimeFlagMean ∧
      (a.overTimeFlagMean = b.overTimeFlagMean → a.jobRole < b.jobRole)) :=
  burnoutDf_stable_by_key (enrich [recRisky, recSafe])

/-- A raw row whose job role sorts after the other's. -/
def exB : Record :=
  { department := "Sales", jobRole := "B", attrition := "No",
    overTime := "No", jobSatisfaction := 3, environmentSatisfaction := 3,
    workLifeBalance := 3, attritionFlag := none, overTimeFlag := none,
    engagementIndex := 0 }

/-- A raw row whose job role sorts before the other's. -/
def exA : Record :=
  { department := "Sales", jobRole := "A", attrition := "No",
    overTime := "No", jobSatisfaction := 3, environmentSatisfaction := 3,
    workLifeBalance := 3, attritionFlag := none, overTimeFlag := none,
    engagementIndex := 0 }

/-- C8 counterexample: in a table whose roles first appear in the order
`B`, `A` and have equal mean `OverTimeFlag`, the sorted summary lists `A`
before `B` — the first-appearance (emergence) order is not retained. -/
theorem burnoutDf_not_emergence_order :
    ((enrich [exB, exA]).map (fun r => r.jobRole)) = ["B", "A"] ∧
    ((burnoutDf (enrich [exB, exA])).map (fun g => g.jobRole)) = ["A", "B"] ∧
    ((burnoutDf (enrich [exB, exA])).map (fun g => g.overTimeFlagMean))
      = [some 0, some 0] := by
  have hkeys : groupKeys (enrich [exB, exA]) = ["A", "B"] := by
    simp [groupKeys, enrich, enrichRecord, exB, exA,
      List.insertionSort, List.orderedInsert]
    all_goals decide
  have hsum : groupSummary (enrich [exB, exA]) =
      [{ jobRole := "A", overTimeFlagMean := some 0,
         engagementIndexMean := some 3, attritionFlagMean := some 0 },
       { jobRole := "B", overTimeFlagMean := some 0,
         engagementIndexMean := some 3, attritionFlagMean := some 0 }] := by
    rw [groupSummary, hkeys]
    have hNY : ¬("No" : String) = "Yes" := by decide
    have hBA : (("B" : String) == "A") = false := by decide
    have hAB : (("A" : String) == "B") = false := by decide
    norm_num [enrich, enrichRecord, exB, exA, yesNoFlag, optMean, seriesMean,
      hNY, hBA, hAB]
    simp [List.filterMap, Option.some_bind]
  have hsort : sortByOverTime
      [{ jobRole := "A", overTimeFlagMean := some 0,
         engagementIndexMean := some 3, attritionFlagMean := some 0 },
       { jobRole := "B", overTimeFlagMean := some 0,
         engagementIndexMean := some 3, attritionFlagMean := some 0 }] =
      [{ jobRole := "A", overTimeFlagMean := some 0,
         engagementIndexMean := some 3, attritionFlagMean := some 0 },
       { jobRole := "B", overTimeFlagMean := some 0,
         engagementIndexMean := some 3, attritionFlagMean := some 0 }] := by
    simp [sortByOverTime, List.insertionSort, List.orderedInsert, meanLE]
  refine ⟨by simp [enrich, enrichRecord, exB, exA], ?_, ?_⟩ <;>
    simp [burnoutDf, hsum, hsort]

/-- C10: re-running the derived-column computation on an already-enriched
table changes nothing: the derived columns are recomputed from the raw
columns, which `enrichRecord` leaves untouched. -/
theorem enrich_idempotent (records : List Record) :
    enrich (enrich records) = enrich records := by
  have h : ∀ r : Record, enrichRecord (enrichRecord r) = enrichRecord r := by
    intro r
    cases r
    rfl
  simp [enrich, List.map_map, Function.comp, h]

end Dashboard
